import Mathlib

/-!
Verification of the fiscal-period and document-numbering engine of the
sass-platform-go-api repository, `fiscal` module.

Shallow embedding conventions:
* Go `int` is modelled as `Int`.
* A civil (AD) date is identified with its integer day offset from the
  anchor civil date 2023-04-14 (midnight UTC): Go's
  `int(ad.Sub(referenceAD).Hours() / 24)` is exactly that offset for
  midnight-aligned dates, and `referenceAD.AddDate(0, 0, n)` is the date
  with offset `n`.
* UUIDs are modelled as `Nat`, wall-clock instants (`time.Now()`) as an
  explicit `Int` argument `now`.
* Database rows and in-memory records are the same `FiscalYear` structure;
  a repository error is the Go error message `String`.
-/

namespace Fiscal

/-- `utils.NepaliDate`: a date in the Bikram Sambat calendar
(fields `Year`, `Month`, `Day`, all Go `int`). -/
structure NepaliDate where
  year : Int
  month : Int
  day : Int
deriving DecidableEq, Repr

/-- The entries of the seeded per-year month-length table
`utils.nepaliMonthDays` (years 2080..2090, twelve entries each). -/
def nepaliMonthDaysEntries : List (Int × List Int) :=
  [(2080, [31, 32, 31, 32, 31, 30, 30, 29, 30, 29, 30, 30]),
   (2081, [31, 31, 32, 31, 31, 31, 30, 29, 30, 29, 30, 30]),
   (2082, [31, 32, 31, 32, 31, 30, 30, 30, 29, 29, 30, 31]),
   (2083, [30, 32, 31, 32, 31, 30, 30, 30, 29, 30, 29, 31]),
   (2084, [31, 31, 32, 31, 31, 31, 30, 29, 30, 29, 30, 30]),
   (2085, [31, 31, 32, 32, 31, 30, 30, 29, 30, 29, 30, 30]),
   (2086, [31, 32, 31, 32, 31, 30, 30, 30, 29, 29, 30, 31]),
   (2087, [30, 32, 31, 32, 31, 30, 30, 30, 29, 30, 29, 31]),
   (2088, [31, 31, 32, 31, 31, 31, 30, 29, 30, 29, 30, 30]),
   (2089, [31, 31, 32, 32, 31, 30, 30, 29, 30, 29, 30, 30]),
   (2090, [31, 32, 31, 32, 31, 30, 30, 30, 29, 29, 30, 31])]

/-- The Go map `utils.nepaliMonthDays`, as the keyed lookup
`monthDays, ok := nepaliMonthDays[year]`. -/
def nepaliMonthDays (year : Int) : Option (List Int) :=
  (nepaliMonthDaysEntries.find? (fun p => p.1 = year)).map Prod.snd

/-- A local year is inside the seeded table. -/
def inSeededTable (year : Int) : Prop :=
  (nepaliMonthDays year).isSome = true

instance (year : Int) : Decidable (inSeededTable year) := by
  unfold inSeededTable; infer_instance

/-- `utils.getDaysInMonth`: table lookup with the silent default of 30 for a
year with no table entry or a month outside 1..12
(Go: `if monthDays, ok := nepaliMonthDays[year]; ok && month >= 1 && month <= 12`). -/
def getDaysInMonth (year month : Int) : Int :=
  match nepaliMonthDays year with
  | some monthDays =>
      if 1 ≤ month ∧ month ≤ 12 then monthDays.getD (month - 1).toNat 0 else 30
  | none => 30

theorem nepaliMonthDays_entries {y : Int} {l : List Int}
    (h : nepaliMonthDays y = some l) :
    l.length = 12 ∧ ∀ x ∈ l, 29 ≤ x ∧ x ≤ 32 := by
  unfold nepaliMonthDays at h
  cases hf : nepaliMonthDaysEntries.find? (fun p => p.1 = y) with
  | none => rw [hf] at h; exact Option.noConfusion h
  | some p =>
      rw [hf] at h
      injection h with h
      have hmem : p ∈ nepaliMonthDaysEntries := List.mem_of_find?_eq_some hf
      have hall : ∀ q ∈ nepaliMonthDaysEntries,
          q.2.length = 12 ∧ ∀ x ∈ q.2, 29 ≤ x ∧ x ≤ 32 := by decide
      subst h
      exact hall p hmem

theorem getDaysInMonth_bounds (y m : Int) :
    29 ≤ getDaysInMonth y m ∧ getDaysInMonth y m ≤ 32 := by
  unfold getDaysInMonth
  cases h : nepaliMonthDays y with
  | none => exact ⟨by norm_num, by norm_num⟩
  | some l =>
      obtain ⟨hlen, hmem⟩ := nepaliMonthDays_entries h
      simp only
      split_ifs with hm
      · have hidx : (m - 1).toNat < l.length := by omega
        rw [List.getD_eq_getElem l 0 hidx]
        exact hmem _ (List.getElem_mem hidx)
      · exact ⟨by norm_num, by norm_num⟩

theorem getDaysInMonth_pos (y m : Int) : 0 < getDaysInMonth y m := by
  have := getDaysInMonth_bounds y m
  omega

/-- Sum of `f a, f (a+1), ..., f (a+n-1)`: the shape of the Go accumulation
loops in `BSToAD` and `getTotalDaysInYear`. -/
def sumN (f : Int → Int) (a : Int) : Nat → Int
  | 0 => 0
  | n + 1 => sumN f a n + f (a + n)

/-- `utils.getTotalDaysInYear`: the loop over months 1..12. -/
def getTotalDaysInYear (year : Int) : Int :=
  sumN (fun m => getDaysInMonth year m) 1 12

/-- Reference anchor: 2080-01-01 BS = 2023-04-14 AD (`referenceBS`/`referenceAD`). -/
def referenceBS : NepaliDate := ⟨2080, 1, 1⟩

/-- First loop of `utils.ADToBS`: while `day > 0` and the day count overflows
the current month, move forward one month. -/
def adForward (year month day : Int) : NepaliDate :=
  if h : 0 < day ∧ getDaysInMonth year month < day then
    if 12 < month + 1 then adForward (year + 1) 1 (day - getDaysInMonth year month)
    else adForward year (month + 1) (day - getDaysInMonth year month)
  else ⟨year, month, day⟩
termination_by day.toNat
decreasing_by
  all_goals
    have hb := getDaysInMonth_bounds year month
    omega

/-- Second loop of `utils.ADToBS`: while `day <= 0`, move back one month. -/
def adBackward (year month day : Int) : NepaliDate :=
  if h : day ≤ 0 then
    if month - 1 < 1 then adBackward (year - 1) 12 (day + getDaysInMonth (year - 1) 12)
    else adBackward year (month - 1) (day + getDaysInMonth year (month - 1))
  else ⟨year, month, day⟩
termination_by (1 - day).toNat
decreasing_by
  · have hb := getDaysInMonth_bounds (year - 1) 12
    omega
  · have hb := getDaysInMonth_bounds year (month - 1)
    omega

/-- `utils.ADToBS`: the civil date with day offset `daysDiff` from the anchor
(2023-04-14) converted to the local calendar, walking month by month from
the anchor local date 2080-01-01. -/
def ADToBS (daysDiff : Int) : NepaliDate :=
  let d0 := adForward referenceBS.year referenceBS.month (referenceBS.day + daysDiff)
  adBackward d0.year d0.month d0.day

/-- `utils.BSToAD`: accumulate whole years from 2080, then whole months, then
days, returning the civil day offset from the anchor
(`referenceAD.AddDate(0, 0, totalDays)` is the date at that offset). -/
def BSToAD (bs : NepaliDate) : Int :=
  let yearPart : Int :=
    if referenceBS.year < bs.year then
      sumN getTotalDaysInYear referenceBS.year (bs.year - referenceBS.year).toNat
    else if bs.year < referenceBS.year then
      -(sumN getTotalDaysInYear bs.year (referenceBS.year - bs.year).toNat)
    else 0
  let monthPart : Int :=
    if referenceBS.month < bs.month then
      sumN (fun m => getDaysInMonth bs.year m) referenceBS.month
        (bs.month - referenceBS.month).toNat
    else if bs.month < referenceBS.month then
      -(sumN (fun m => getDaysInMonth bs.year m) bs.month
        (referenceBS.month - bs.month).toNat)
    else 0
  yearPart + monthPart + (bs.day - referenceBS.day)

/-- A structurally valid local date: month in 1..12 and day within the
month length the code itself would report. -/
def NepaliDate.valid (bs : NepaliDate) : Prop :=
  1 ≤ bs.month ∧ bs.month ≤ 12 ∧ 1 ≤ bs.day ∧ bs.day ≤ getDaysInMonth bs.year bs.month

instance (bs : NepaliDate) : Decidable bs.valid := by
  unfold NepaliDate.valid; infer_instance

/-- Strict lexicographic order on local dates (year, then month, then day). -/
def NepaliDate.lexLt (a b : NepaliDate) : Prop :=
  a.year < b.year ∨ (a.year = b.year ∧
    (a.month < b.month ∨ (a.month = b.month ∧ a.day < b.day)))

instance (a b : NepaliDate) : Decidable (a.lexLt b) := by
  unfold NepaliDate.lexLt; infer_instance

/-! ### Signed interval sums -/

/-- Signed sum of `f` over the half-open integer interval `[a, b)`
(negated when `b < a`). -/
def sumFrom (f : Int → Int) (a b : Int) : Int :=
  if a ≤ b then sumN f a (b - a).toNat else -(sumN f b (a - b).toNat)

theorem sumN_succ_left (f : Int → Int) (a : Int) (n : Nat) :
    sumN f a (n + 1) = f a + sumN f (a + 1) n := by
  induction n generalizing a with
  | zero => simp [sumN]
  | succ k ih =>
      have h1 : sumN f a (k + 1 + 1) = sumN f a (k + 1) + f (a + (k + 1 : Nat)) := rfl
      have h2 : sumN f (a + 1) (k + 1) = sumN f (a + 1) k + f (a + 1 + (k : Nat)) := rfl
      rw [h1, ih, h2]
      have : a + ((k : Int) + 1) = a + 1 + (k : Int) := by ring
      push_cast
      rw [this]
      ring

theorem sumFrom_self (f : Int → Int) (a : Int) : sumFrom f a a = 0 := by
  simp [sumFrom, sumN]

theorem sumFrom_succ_top (f : Int → Int) (a b : Int) :
    sumFrom f a (b + 1) = sumFrom f a b + f b := by
  unfold sumFrom
  rcases le_or_lt a b with hab | hba
  · rw [if_pos hab, if_pos (by omega)]
    have hn : (b + 1 - a).toNat = (b - a).toNat + 1 := by omega
    rw [hn]
    show sumN f a ((b - a).toNat) + f (a + ((b - a).toNat : Int)) = _
    have : a + ((b - a).toNat : Int) = b := by omega
    rw [this]
  · rcases eq_or_lt_of_le (by omega : b + 1 ≤ a) with heq | hlt
    · rw [if_pos (le_of_eq heq.symm), if_neg (by omega)]
      have h1 : (b + 1 - a).toNat = 0 := by omega
      have h2 : (a - b).toNat = 1 := by omega
      rw [h1, h2]
      show (0 : Int) = -(0 + f (b + (0 : Nat))) + f b
      simp
    · rw [if_neg (by omega), if_neg (by omega)]
      have h1 : (a - b).toNat = (a - (b + 1)).toNat + 1 := by omega
      rw [h1, sumN_succ_left]
      ring

theorem sumFrom_add_nat (f : Int → Int) (a b : Int) (n : Nat) :
    sumFrom f a (b + n) = sumFrom f a b + sumN f b n := by
  induction n with
  | zero => simp [sumN]
  | succ k ih =>
      have : b + ((k + 1 : Nat) : Int) = (b + (k : Nat)) + 1 := by push_cast; ring
      rw [this, sumFrom_succ_top, ih]
      show _ = sumFrom f a b + (sumN f b k + f (b + (k : Nat)))
      ring

theorem sumFrom_add (f : Int → Int) (a b c : Int) :
    sumFrom f a b + sumFrom f b c = sumFrom f a c := by
  rcases le_or_lt b c with hbc | hcb
  · have hc : c = b + ((c - b).toNat : Int) := by omega
    rw [hc, sumFrom_add_nat f b b, sumFrom_add_nat f a b, sumFrom_self]
    ring
  · have hb : b = c + ((b - c).toNat : Int) := by omega
    have h1 : sumFrom f a b = sumFrom f a c + sumN f c (b - c).toNat := by
      conv_lhs => rw [hb]
      exact sumFrom_add_nat f a c _
    have h2 : sumFrom f b c = -(sumN f c (b - c).toNat) := by
      rw [sumFrom, if_neg (by omega)]
    rw [h1, h2]
    ring

theorem sumN_nonneg {f : Int → Int} (hf : ∀ i, 0 ≤ f i) (a : Int) (n : Nat) :
    0 ≤ sumN f a n := by
  induction n with
  | zero => simp [sumN]
  | succ k ih => exact add_nonneg ih (hf _)

theorem sumFrom_nonneg {f : Int → Int} (hf : ∀ i, 0 ≤ f i) {a b : Int} (hab : a ≤ b) :
    0 ≤ sumFrom f a b := by
  rw [sumFrom, if_pos hab]
  exact sumN_nonneg hf _ _

theorem sumFrom_mono {f : Int → Int} (hf : ∀ i, 0 ≤ f i) (a : Int) {b c : Int}
    (hbc : b ≤ c) : sumFrom f a b ≤ sumFrom f a c := by
  have h := sumFrom_add f a b c
  have h2 := sumFrom_nonneg hf hbc
  omega

/-! ### The closed form of `BSToAD` and single-month step lemmas -/

theorem threeway_eq_sumFrom (f : Int → Int) (a b : Int) :
    (if a < b then sumN f a (b - a).toNat
     else if b < a then -(sumN f b (a - b).toNat) else 0) = sumFrom f a b := by
  unfold sumFrom
  split_ifs with h1 h2 h3 h4 h5
  all_goals try rfl
  all_goals try omega
  have hb : b = a := by omega
  subst hb
  rw [show (b - b).toNat = 0 from by omega]
  rfl

theorem BSToAD_eq (bs : NepaliDate) :
    BSToAD bs = sumFrom getTotalDaysInYear 2080 bs.year
      + sumFrom (fun m => getDaysInMonth bs.year m) 1 bs.month + (bs.day - 1) := by
  unfold BSToAD
  rw [show referenceBS.year = 2080 from rfl, show referenceBS.month = 1 from rfl,
    show referenceBS.day = 1 from rfl]
  rw [← threeway_eq_sumFrom getTotalDaysInYear 2080 bs.year,
    ← threeway_eq_sumFrom (fun m => getDaysInMonth bs.year m) 1 bs.month]

theorem getTotalDaysInYear_eq (y : Int) :
    getTotalDaysInYear y = sumFrom (fun m => getDaysInMonth y m) 1 13 := by
  rw [sumFrom, if_pos (by omega)]
  rfl

theorem BSToAD_stepMonth (y m d : Int) :
    BSToAD ⟨y, m + 1, d - getDaysInMonth y m⟩ = BSToAD ⟨y, m, d⟩ := by
  rw [BSToAD_eq, BSToAD_eq]
  simp only
  rw [sumFrom_succ_top (fun m' => getDaysInMonth y m') 1 m]
  ring

theorem BSToAD_stepYear (y d : Int) :
    BSToAD ⟨y + 1, 1, d - getDaysInMonth y 12⟩ = BSToAD ⟨y, 12, d⟩ := by
  rw [BSToAD_eq, BSToAD_eq]
  simp only
  rw [sumFrom_self, sumFrom_succ_top getTotalDaysInYear 2080 y, getTotalDaysInYear_eq]
  rw [show (13 : Int) = 12 + 1 from rfl, sumFrom_succ_top (fun m => getDaysInMonth y m) 1 12]
  ring

theorem BSToAD_backMonth (y m d : Int) :
    BSToAD ⟨y, m - 1, d + getDaysInMonth y (m - 1)⟩ = BSToAD ⟨y, m, d⟩ := by
  have h := BSToAD_stepMonth y (m - 1) (d + getDaysInMonth y (m - 1))
  rw [show m - 1 + 1 = m from by ring] at h
  rw [show d + getDaysInMonth y (m - 1) - getDaysInMonth y (m - 1) = d from by ring] at h
  exact h.symm

theorem BSToAD_backYear (y d : Int) :
    BSToAD ⟨y - 1, 12, d + getDaysInMonth (y - 1) 12⟩ = BSToAD ⟨y, 1, d⟩ := by
  have h := BSToAD_stepYear (y - 1) (d + getDaysInMonth (y - 1) 12)
  rw [show y - 1 + 1 = y from by ring] at h
  rw [show d + getDaysInMonth (y - 1) 12 - getDaysInMonth (y - 1) 12 = d from by ring] at h
  exact h.symm

/-! ### Loop invariants of `ADToBS` and the round-trip theorems -/

theorem adForward_spec (y m d : Int) (h1 : 1 ≤ m) (h2 : m ≤ 12) :
    BSToAD (adForward y m d) = BSToAD ⟨y, m, d⟩ ∧
    1 ≤ (adForward y m d).month ∧ (adForward y m d).month ≤ 12 ∧
    (adForward y m d).day ≤
      getDaysInMonth (adForward y m d).year (adForward y m d).month := by
  rw [adForward.eq_def]
  split
  next hgo =>
    split
    next hwrap =>
      have hm12 : m = 12 := by omega
      subst hm12
      have ih := adForward_spec (y + 1) 1 (d - getDaysInMonth y 12)
        (by norm_num) (by norm_num)
      exact ⟨ih.1.trans (BSToAD_stepYear y d), ih.2⟩
    next hwrap =>
      have ih := adForward_spec y (m + 1) (d - getDaysInMonth y m)
        (by omega) (by omega)
      exact ⟨ih.1.trans (BSToAD_stepMonth y m d), ih.2⟩
  next hstop =>
    have hb := getDaysInMonth_bounds y m
    refine ⟨rfl, h1, h2, ?_⟩
    show d ≤ getDaysInMonth y m
    omega
termination_by d.toNat
decreasing_by
  all_goals
    have hb1 := getDaysInMonth_bounds y m
    have hb2 := getDaysInMonth_bounds y 12
    omega

theorem adBackward_spec (y m d : Int) (h1 : 1 ≤ m) (h2 : m ≤ 12)
    (h3 : d ≤ getDaysInMonth y m) :
    BSToAD (adBackward y m d) = BSToAD ⟨y, m, d⟩ ∧ (adBackward y m d).valid := by
  rw [adBackward.eq_def]
  split
  next hgo =>
    split
    next hwrap =>
      have hm1 : m = 1 := by omega
      subst hm1
      have ih := adBackward_spec (y - 1) 12 (d + getDaysInMonth (y - 1) 12)
        (by norm_num) (by norm_num) (by omega)
      exact ⟨ih.1.trans (BSToAD_backYear y d), ih.2⟩
    next hwrap =>
      have ih := adBackward_spec y (m - 1) (d + getDaysInMonth y (m - 1))
        (by omega) (by omega) (by omega)
      exact ⟨ih.1.trans (BSToAD_backMonth y m d), ih.2⟩
  next hstop =>
    refine ⟨rfl, h1, h2, ?_, h3⟩
    show 1 ≤ d
    omega
termination_by (1 - d).toNat
decreasing_by
  all_goals
    have hb1 := getDaysInMonth_bounds (y - 1) 12
    have hb2 := getDaysInMonth_bounds y (m - 1)
    omega

theorem BSToAD_ADToBS (dd : Int) : BSToAD (ADToBS dd) = dd ∧ (ADToBS dd).valid := by
  have hf := adForward_spec referenceBS.year referenceBS.month (referenceBS.day + dd)
    (by norm_num [referenceBS]) (by norm_num [referenceBS])
  obtain ⟨hf1, hf2, hf3, hf4⟩ := hf
  have hb := adBackward_spec (adForward referenceBS.year referenceBS.month
      (referenceBS.day + dd)).year
    (adForward referenceBS.year referenceBS.month (referenceBS.day + dd)).month
    (adForward referenceBS.year referenceBS.month (referenceBS.day + dd)).day
    hf2 hf3 hf4
  have heta : (⟨(adForward referenceBS.year referenceBS.month (referenceBS.day + dd)).year,
      (adForward referenceBS.year referenceBS.month (referenceBS.day + dd)).month,
      (adForward referenceBS.year referenceBS.month (referenceBS.day + dd)).day⟩ :
      NepaliDate) = adForward referenceBS.year referenceBS.month (referenceBS.day + dd) :=
    rfl
  rw [heta] at hb
  refine ⟨?_, hb.2⟩
  rw [show ADToBS dd = adBackward (adForward referenceBS.year referenceBS.month
      (referenceBS.day + dd)).year
    (adForward referenceBS.year referenceBS.month (referenceBS.day + dd)).month
    (adForward referenceBS.year referenceBS.month (referenceBS.day + dd)).day from rfl]
  rw [hb.1, hf1, BSToAD_eq]
  simp only [referenceBS]
  rw [sumFrom_self, sumFrom_self]
  ring

theorem BSToAD_lt_of_lexLt {b1 b2 : NepaliDate} (hv1 : b1.valid) (hv2 : b2.valid)
    (hlt : b1.lexLt b2) : BSToAD b1 < BSToAD b2 := by
  obtain ⟨y1, m1, d1⟩ := b1
  obtain ⟨y2, m2, d2⟩ := b2
  obtain ⟨hm1a, hm1b, hd1a, hd1b⟩ := hv1
  obtain ⟨hm2a, hm2b, hd2a, hd2b⟩ := hv2
  simp only at hm1a hm1b hd1a hd1b hm2a hm2b hd2a hd2b
  rw [BSToAD_eq, BSToAD_eq]
  simp only
  have hg : ∀ (y : Int), ∀ (i : Int), 0 ≤ getDaysInMonth y i :=
    fun y i => le_of_lt (getDaysInMonth_pos y i)
  have hty : ∀ i : Int, 0 ≤ getTotalDaysInYear i := fun i => by
    rw [getTotalDaysInYear_eq]
    exact sumFrom_nonneg (hg i) (by norm_num)
  rcases hlt with hy | ⟨hyeq, hm | ⟨hmeq, hd⟩⟩
  · simp only at hy
    have A1 := sumFrom_succ_top (fun m => getDaysInMonth y1 m) 1 m1
    have A2 : sumFrom (fun m => getDaysInMonth y1 m) 1 (m1 + 1) ≤
        sumFrom (fun m => getDaysInMonth y1 m) 1 13 := sumFrom_mono (hg y1) 1 (by omega)
    have A3 := getTotalDaysInYear_eq y1
    have B1 := sumFrom_succ_top getTotalDaysInYear 2080 y1
    have B2 : sumFrom getTotalDaysInYear 2080 (y1 + 1) ≤
        sumFrom getTotalDaysInYear 2080 y2 := sumFrom_mono hty 2080 (by omega)
    have C1 : 0 ≤ sumFrom (fun m => getDaysInMonth y2 m) 1 m2 :=
      sumFrom_nonneg (hg y2) (by omega)
    simp only at A1 B1
    omega
  · simp only at hyeq hm
    subst hyeq
    have A1 := sumFrom_succ_top (fun m => getDaysInMonth y1 m) 1 m1
    have A2 : sumFrom (fun m => getDaysInMonth y1 m) 1 (m1 + 1) ≤
        sumFrom (fun m => getDaysInMonth y1 m) 1 m2 := sumFrom_mono (hg y1) 1 (by omega)
    simp only at A1
    omega
  · simp only at hyeq hmeq hd
    subst hyeq
    subst hmeq
    omega

theorem NepaliDate.lexLt_trichot (a b : NepaliDate) : a = b ∨ a.lexLt b ∨ b.lexLt a := by
  obtain ⟨y1, m1, d1⟩ := a
  obtain ⟨y2, m2, d2⟩ := b
  simp only [NepaliDate.lexLt, NepaliDate.mk.injEq]
  omega

theorem BSToAD_inj {b1 b2 : NepaliDate} (hv1 : b1.valid) (hv2 : b2.valid)
    (h : BSToAD b1 = BSToAD b2) : b1 = b2 := by
  rcases NepaliDate.lexLt_trichot b1 b2 with heq | hlt | hgt
  · exact heq
  · exact absurd h (by have := BSToAD_lt_of_lexLt hv1 hv2 hlt; omega)
  · exact absurd h (by have := BSToAD_lt_of_lexLt hv2 hv1 hgt; omega)

theorem ADToBS_BSToAD {bs : NepaliDate} (hv : bs.valid) : ADToBS (BSToAD bs) = bs := by
  have h := BSToAD_ADToBS (BSToAD bs)
  exact BSToAD_inj h.2 hv h.1

theorem ADToBS_lexLt {d1 d2 : Int} (h : d1 < d2) : (ADToBS d1).lexLt (ADToBS d2) := by
  have r1 := BSToAD_ADToBS d1
  have r2 := BSToAD_ADToBS d2
  rcases NepaliDate.lexLt_trichot (ADToBS d1) (ADToBS d2) with heq | hlt | hgt
  · rw [heq] at r1
    omega
  · exact hlt
  · have := BSToAD_lt_of_lexLt r2.2 r1.2 hgt
    omega

/-! ### String formatting (`fmt.Sprintf` width specifiers) -/

/-- Left-pad a string with zeros to `width` characters. -/
def zeroPad (width : Nat) (s : String) : String :=
  if s.length < width then String.mk (List.replicate (width - s.length) '0') ++ s else s

/-- Go's `%0<width>d` on an `int`. -/
def fmtInt (width : Nat) (n : Int) : String :=
  if n < 0 then "-" ++ zeroPad (width - 1) (Nat.repr (-n).toNat)
  else zeroPad width (Nat.repr n.toNat)

/-- `NepaliDate.String()`: `fmt.Sprintf("%04d-%02d-%02d", Year, Month, Day)`. -/
def NepaliDate.toDateString (nd : NepaliDate) : String :=
  fmtInt 4 nd.year ++ "-" ++ fmtInt 2 nd.month ++ "-" ++ fmtInt 2 nd.day

/-! ### `fmt.Sscanf(name, "%d/", &year)` in `GetFiscalYearDates` -/

/-- Strip one optional leading sign character, as the `%d` verb does. -/
def afterSign (cs : List Char) : List Char :=
  match cs with
  | '-' :: rest => rest
  | '+' :: rest => rest
  | _ => cs

/-- The sign contributed by an optional leading `-`. -/
def signOf (cs : List Char) : Int :=
  match cs with
  | '-' :: _ => -1
  | _ => 1

/-- Base-10 value of a digit run. -/
def digitsVal (cs : List Char) : Int :=
  cs.foldl (fun a c => a * 10 + ((c.toNat : Int) - 48)) 0

/-- Effect of `fmt.Sscanf(s, "%d/", &year)` on `year` (declared `var year int`,
so zero-initialized): `%d` skips leading whitespace, reads an optional sign
and a base-10 digit run; when no digit is present the scan fails and `year`
keeps its zero value. `GetFiscalYearDates` discards the error, so this value
is all that survives. -/
def parseLeadingInt (s : String) : Int :=
  let cs := s.data.dropWhile Char.isWhitespace
  let ds := (afterSign cs).takeWhile Char.isDigit
  if ds.isEmpty then 0 else signOf cs * digitsVal ds

/-- Whether `%d` finds an integer at the start of `s` (after whitespace,
an optional sign followed by at least one digit). -/
def beginsWithInt (s : String) : Bool :=
  !((afterSign (s.data.dropWhile Char.isWhitespace)).takeWhile Char.isDigit).isEmpty

theorem parseLeadingInt_of_not_beginsWithInt {s : String}
    (h : beginsWithInt s = false) : parseLeadingInt s = 0 := by
  unfold beginsWithInt at h
  unfold parseLeadingInt
  simp only [Bool.not_eq_false'] at h
  rw [if_pos h]

/-! ### `utils.GetFiscalYearDates` -/

/-- The four return values of `GetFiscalYearDates`. -/
structure FiscalYearDates where
  startBS : NepaliDate
  endBS : NepaliDate
  startAD : Int
  endAD : Int
deriving DecidableEq, Repr

/-- `utils.GetFiscalYearDates`: parse the leading year of the name
(errors discarded), start on Shrawan 1 (month 4, day 1), end hard-coded on
Ashad 32 (month 3, day 32 of the next local year), both converted to AD. -/
def GetFiscalYearDates (fiscalYearName : String) : FiscalYearDates :=
  let year := parseLeadingInt fiscalYearName
  let startBS : NepaliDate := ⟨year, 4, 1⟩
  let endBS : NepaliDate := ⟨year + 1, 3, 32⟩
  { startBS := startBS, endBS := endBS, startAD := BSToAD startBS, endAD := BSToAD endBS }

/-! ### `domain.FiscalYear` -/

/-- `domain.FiscalYear` (UUIDs as `Nat`, timestamps as `Int`). -/
structure FiscalYear where
  id : Nat
  tenantId : Nat
  name : String
  startDate : Int
  endDate : Int
  startDateBS : String
  endDateBS : String
  isCurrent : Bool
  isClosed : Bool
  closedAt : Option Int
  closedBy : Option Nat
  invoicePrefix : String
  purchasePrefix : String
  voucherPrefix : String
  lastInvoiceNum : Int
  lastPurchaseNum : Int
  lastVoucherNum : Int
  createdAt : Int
  updatedAt : Int
deriving DecidableEq, Repr

/-- `domain.generatePrefix`: for a name of byte length at least 7 strip the
century digits and the separator (`name[2:4] + name[5:7]`), otherwise embed
the whole name; characters and Go bytes agree on the ASCII names at play. -/
def generatePrefix (docType fiscalYearName : String) : String :=
  let yearCode :=
    if 7 ≤ fiscalYearName.length then
      (fiscalYearName.drop 2).take 2 ++ (fiscalYearName.drop 5).take 2
    else fiscalYearName
  docType ++ "-" ++ yearCode ++ "-"

/-- `domain.NewFiscalYear` (the fresh `uuid.New()` and `time.Now()` are the
`id` and `now` arguments). -/
def NewFiscalYear (now : Int) (id tenantId : Nat) (name : String)
    (startDate endDate : Int) (startDateBS endDateBS : String) : FiscalYear :=
  { id := id
    tenantId := tenantId
    name := name
    startDate := startDate
    endDate := endDate
    startDateBS := startDateBS
    endDateBS := endDateBS
    isCurrent := false
    isClosed := false
    closedAt := none
    closedBy := none
    invoicePrefix := generatePrefix "INV" name
    purchasePrefix := generatePrefix "PUR" name
    voucherPrefix := generatePrefix "JV" name
    lastInvoiceNum := 0
    lastPurchaseNum := 0
    lastVoucherNum := 0
    createdAt := now
    updatedAt := now }

/-- `(*FiscalYear).Close`. -/
def FiscalYear.close (now : Int) (closedBy : Nat) (fy : FiscalYear) : FiscalYear :=
  { fy with
    isClosed := true
    closedAt := some now
    closedBy := some closedBy
    updatedAt := now }

/-- `(*FiscalYear).Reopen`. -/
def FiscalYear.reopen (now : Int) (fy : FiscalYear) : FiscalYear :=
  { fy with isClosed := false, closedAt := none, closedBy := none, updatedAt := now }

/-! ### Repository counter increments and the numbering service

The repository's `Increment*Number` statements are single atomic
read-modify-write UPDATEs returning the post-increment value
(`SET last_invoice_num = last_invoice_num + 1 ... RETURNING last_invoice_num`).
Each service operation below acts on the loaded period row and returns the
Go result paired with the row as the database holds it afterwards; on the
error paths no UPDATE runs, so the row is returned unchanged. -/

/-- `repository.IncrementInvoiceNumber`. -/
def incrementInvoiceNumber (now : Int) (fy : FiscalYear) : Int × FiscalYear :=
  (fy.lastInvoiceNum + 1, { fy with lastInvoiceNum := fy.lastInvoiceNum + 1, updatedAt := now })

/-- `repository.IncrementPurchaseNumber`. -/
def incrementPurchaseNumber (now : Int) (fy : FiscalYear) : Int × FiscalYear :=
  (fy.lastPurchaseNum + 1, { fy with lastPurchaseNum := fy.lastPurchaseNum + 1, updatedAt := now })

/-- `repository.IncrementVoucherNumber`. -/
def incrementVoucherNumber (now : Int) (fy : FiscalYear) : Int × FiscalYear :=
  (fy.lastVoucherNum + 1, { fy with lastVoucherNum := fy.lastVoucherNum + 1, updatedAt := now })

/-- `service.GenerateInvoiceNumber` on the loaded period row. -/
def GenerateInvoiceNumber (now : Int) (fy : FiscalYear) :
    Except String String × FiscalYear :=
  if fy.isClosed then
    (.error "cannot generate invoice number for closed fiscal year", fy)
  else
    let r := incrementInvoiceNumber now fy
    (.ok (fy.invoicePrefix ++ fmtInt 4 r.1), r.2)

/-- `service.GeneratePurchaseNumber` on the loaded period row. -/
def GeneratePurchaseNumber (now : Int) (fy : FiscalYear) :
    Except String String × FiscalYear :=
  if fy.isClosed then
    (.error "cannot generate purchase number for closed fiscal year", fy)
  else
    let r := incrementPurchaseNumber now fy
    (.ok (fy.purchasePrefix ++ fmtInt 4 r.1), r.2)

/-- `service.GenerateVoucherNumber` on the loaded period row. -/
def GenerateVoucherNumber (now : Int) (fy : FiscalYear) :
    Except String String × FiscalYear :=
  if fy.isClosed then
    (.error "cannot generate voucher number for closed fiscal year", fy)
  else
    let r := incrementVoucherNumber now fy
    (.ok (fy.voucherPrefix ++ fmtInt 4 r.1), r.2)

/-- `service.Reopen` on the loaded period row: reject when not closed,
otherwise apply the domain `Reopen` and persist it. -/
def ServiceReopen (now : Int) (fy : FiscalYear) : Except String Unit × FiscalYear :=
  if fy.isClosed = false then (.error "fiscal year is not closed", fy)
  else (.ok (), fy.reopen now)

/-- `service.CreateFromNepaliDate`: derive both calendars from the name via
`GetFiscalYearDates` (whose parse error is discarded) and persist the new
row; the repository insert adds no validation, so it is modelled as
succeeding. -/
def CreateFromNepaliDate (now : Int) (id tenantId : Nat) (fiscalYearName : String) :
    Except String FiscalYear :=
  let d := GetFiscalYearDates fiscalYearName
  .ok (NewFiscalYear now id tenantId fiscalYearName d.startAD d.endAD
    d.startBS.toDateString d.endBS.toDateString)

/-- `repository.SetAsCurrent`: the two UPDATEs of the single `db.BeginFunc`
transaction, applied as one atomic transformation of the table — first clear
`is_current` on the tenant's current rows, then set it on the row whose id
and tenant match. -/
def SetAsCurrent (now : Int) (tenantId fiscalYearId : Nat)
    (db : List FiscalYear) : List FiscalYear :=
  (db.map fun fy =>
    if fy.tenantId = tenantId ∧ fy.isCurrent = true then
      { fy with isCurrent := false, updatedAt := now }
    else fy).map fun fy =>
    if fy.id = fiscalYearId ∧ fy.tenantId = tenantId then
      { fy with isCurrent := true, updatedAt := now }
    else fy

deriving instance DecidableEq for Except

/-! ### Sample rows for concrete instantiations -/

/-- The period `create(tenantA, "2082/83")` builds (AD offsets 824/1189 are
what `BSToAD` yields for its two local dates). -/
def sampleFY : FiscalYear :=
  NewFiscalYear 0 1 100 "2082/83" 824 1189 "2082-04-01" "2083-03-32"

/-- `sampleFY` closed by user 7 at time 50. -/
def sampleClosedFY : FiscalYear := FiscalYear.close 50 7 sampleFY

/-- A period of tenant 100 that is current (id 1). -/
def sampleCurrentFY : FiscalYear := { sampleFY with isCurrent := true }

/-- A second period of tenant 100 (id 2), not current. -/
def sampleOtherFY : FiscalYear :=
  NewFiscalYear 0 2 100 "2083/84" 1190 1555 "2083-04-01" "2084-03-32"

/-! ### Concrete conversion evaluations -/

theorem ADToBS_at_824 : ADToBS 824 = ⟨2082, 4, 1⟩ := by
  have h : BSToAD ⟨2082, 4, 1⟩ = 824 := by decide
  rw [← h, ADToBS_BSToAD (by decide)]

theorem ADToBS_at_825 : ADToBS 825 = ⟨2082, 4, 2⟩ := by
  have h : BSToAD ⟨2082, 4, 2⟩ = 825 := by decide
  rw [← h, ADToBS_BSToAD (by decide)]

/-! ### The claims -/

/-- C1: the claim says a local year outside the seeded table (such as 2100,
with no entry in 2080–2090) must make the conversion operations fail with
`CalendarRangeError`. The code has no such error path: `getDaysInMonth`
silently returns the assumed default of 30 for every month of such a year,
`getTotalDaysInYear` (the year-walk step of `ADToBS`/`BSToAD`) consumes the
default as a 360-day year, and `BSToAD` silently equates the out-of-table
dates 2091-01-31 and 2091-02-01 because the default month has only 30 days. -/
theorem c1_out_of_table_silent_default :
    nepaliMonthDays 2100 = none ∧
    getDaysInMonth 2100 1 = 30 ∧ getDaysInMonth 2100 12 = 30 ∧
    getTotalDaysInYear 2100 = 360 ∧
    BSToAD ⟨2091, 1, 31⟩ = BSToAD ⟨2091, 2, 1⟩ := by
  refine ⟨rfl, rfl, rfl, by decide, by decide⟩

/-- C2: round-trip of the calendar conversion — for a civil date (day offset
from the anchor) whose local equivalent lies in the seeded table,
`BSToAD (ADToBS d) = d`, and for a valid in-table local date,
`ADToBS (BSToAD bs) = bs`. -/
theorem c2_conversion_round_trip (d : Int) (bs : NepaliDate)
    (hd : inSeededTable (ADToBS d).year)
    (hbs : bs.valid) (hbst : inSeededTable bs.year) :
    BSToAD (ADToBS d) = d ∧ ADToBS (BSToAD bs) = bs :=
  ⟨(BSToAD_ADToBS d).1, ADToBS_BSToAD hbs⟩

/-- C2 witness at the civil offset 824 and the local date 2082-04-01. -/
theorem c2_conversion_round_trip_witness :
    inSeededTable (ADToBS 824).year ∧
    NepaliDate.valid ⟨2082, 4, 1⟩ ∧ inSeededTable (⟨2082, 4, 1⟩ : NepaliDate).year ∧
    (BSToAD (ADToBS 824) = 824 ∧ ADToBS (BSToAD ⟨2082, 4, 1⟩) = ⟨2082, 4, 1⟩) :=
  ⟨by rw [ADToBS_at_824]; decide, by decide, by decide,
   c2_conversion_round_trip 824 ⟨2082, 4, 1⟩ (by rw [ADToBS_at_824]; decide)
     (by decide) (by decide)⟩

/-- C3 counterexample: for the name "2082/83" the computed local end is the
hard-coded 2083-03-32, although the month-length table says month 3 of 2083
has only 31 days, so the end day is not the table's true last day. -/
theorem c3_counterexample_day32 :
    (GetFiscalYearDates "2082/83").endBS = ⟨2083, 3, 32⟩ ∧
    getDaysInMonth 2083 3 = 31 ∧
    (GetFiscalYearDates "2082/83").endBS.day ≠
      getDaysInMonth (GetFiscalYearDates "2082/83").endBS.year
        (GetFiscalYearDates "2082/83").endBS.month := by
  refine ⟨by decide, rfl, by decide⟩

/-- C3 amended: for every fiscal-year name, the derived local start is month
4 / day 1 of the parsed year, and the local end is month 3 / *day 32* of the
following local year — hard-coded, not the table-computed last day. -/
theorem c3_fiscal_year_dates_hardcoded (name : String) :
    (GetFiscalYearDates name).startBS = ⟨parseLeadingInt name, 4, 1⟩ ∧
    (GetFiscalYearDates name).endBS = ⟨parseLeadingInt name + 1, 3, 32⟩ :=
  ⟨rfl, rfl⟩

/-- C4: `create(tenantA, "2082/83")` with no explicit dates serializes the
local start as "2082-04-01", the invoice counter starts at 0, and three
successive invoice-number requests return exactly INV-8283-0001/2/3: the
immutable invoice prefix followed by the post-increment counter zero-padded
to 4 digits. -/
theorem c4_create_then_three_invoices :
    ((CreateFromNepaliDate 0 1 100 "2082/83").toOption.map fun fy =>
      (fy.startDateBS, fy.lastInvoiceNum,
        (GenerateInvoiceNumber 1 fy).1,
        (GenerateInvoiceNumber 2 (GenerateInvoiceNumber 1 fy).2).1,
        (GenerateInvoiceNumber 3
          (GenerateInvoiceNumber 2 (GenerateInvoiceNumber 1 fy).2).2).1)) =
    some ("2082-04-01", 0, .ok "INV-8283-0001", .ok "INV-8283-0002",
      .ok "INV-8283-0003") := by
  decide

/-- C5: on a closed period every numbering operation (invoice, purchase,
voucher) fails with the closed-period error, issues no number, and returns
the period row completely unchanged — in particular all three counters keep
their values. -/
theorem c5_closed_period_rejected (now : Int) (fy : FiscalYear)
    (h : fy.isClosed = true) :
    GenerateInvoiceNumber now fy =
      (.error "cannot generate invoice number for closed fiscal year", fy) ∧
    GeneratePurchaseNumber now fy =
      (.error "cannot generate purchase number for closed fiscal year", fy) ∧
    GenerateVoucherNumber now fy =
      (.error "cannot generate voucher number for closed fiscal year", fy) := by
  unfold GenerateInvoiceNumber GeneratePurchaseNumber GenerateVoucherNumber
  rw [h]
  exact ⟨rfl, rfl, rfl⟩

/-- C5 witness: the closed sample period. -/
theorem c5_closed_period_rejected_witness :
    sampleClosedFY.isClosed = true ∧
    (GenerateInvoiceNumber 60 sampleClosedFY =
      (.error "cannot generate invoice number for closed fiscal year",
        sampleClosedFY) ∧
     GeneratePurchaseNumber 60 sampleClosedFY =
      (.error "cannot generate purchase number for closed fiscal year",
        sampleClosedFY) ∧
     GenerateVoucherNumber 60 sampleClosedFY =
      (.error "cannot generate voucher number for closed fiscal year",
        sampleClosedFY)) :=
  ⟨by decide, c5_closed_period_rejected 60 sampleClosedFY (by decide)⟩

/-- C6: `setCurrent` over the tenant's table — when the target id is a row
of the tenant, the transaction's result has that row current, every other
row of the tenant not current (so exactly one row of the tenant is current);
the two UPDATEs run inside a single `db.BeginFunc` transaction, modelled as
one atomic transformation, so no intermediate state is observable. -/
theorem c6_set_as_current (now : Int) (tenantId fiscalYearId : Nat)
    (db : List FiscalYear)
    (hmem : ∃ fy ∈ db, fy.id = fiscalYearId ∧ fy.tenantId = tenantId) :
    (∃ fy ∈ SetAsCurrent now tenantId fiscalYearId db,
      fy.id = fiscalYearId ∧ fy.tenantId = tenantId ∧ fy.isCurrent = true) ∧
    ∀ fy ∈ SetAsCurrent now tenantId fiscalYearId db,
      fy.tenantId = tenantId → (fy.isCurrent = true ↔ fy.id = fiscalYearId) := by
  obtain ⟨fy0, h0mem, h0id, h0t⟩ := hmem
  unfold SetAsCurrent
  constructor
  · refine ⟨_, List.mem_map_of_mem _ (List.mem_map_of_mem _ h0mem), ?_⟩
    by_cases hc : fy0.tenantId = tenantId ∧ fy0.isCurrent = true <;>
      simp only [hc, if_true, if_false, reduceIte] <;>
      simp_all
  · intro fy hfy ht
    rw [List.mem_map] at hfy
    obtain ⟨z, hz, rfl⟩ := hfy
    rw [List.mem_map] at hz
    obtain ⟨x, hx, rfl⟩ := hz
    by_cases hct : x.tenantId = tenantId
    · by_cases hcc : x.isCurrent = true <;> by_cases hid : x.id = fiscalYearId <;>
        simp [hct, hcc, hid]
    · simp [hct] at ht

/-- C6 witness: tenant 100 with current period id 1 and target period id 2. -/
theorem c6_set_as_current_witness :
    (∃ fy ∈ [sampleCurrentFY, sampleOtherFY], fy.id = 2 ∧ fy.tenantId = 100) ∧
    ((∃ fy ∈ SetAsCurrent 9 100 2 [sampleCurrentFY, sampleOtherFY],
      fy.id = 2 ∧ fy.tenantId = 100 ∧ fy.isCurrent = true) ∧
    ∀ fy ∈ SetAsCurrent 9 100 2 [sampleCurrentFY, sampleOtherFY],
      fy.tenantId = 100 → (fy.isCurrent = true ↔ fy.id = 2)) :=
  ⟨by decide, c6_set_as_current 9 100 2 [sampleCurrentFY, sampleOtherFY] (by decide)⟩

/-- C7: `reopen` fails with the not-closed error on an open period; on a
closed period it clears the closed markers while keeping all three counters,
the three prefixes, the name and the four dates, and a subsequent numbering
call succeeds, formatting the old counter value plus one (never zero). -/
theorem c7_reopen_continuity (now now2 : Int) (fy : FiscalYear) :
    (fy.isClosed = false →
      ServiceReopen now fy = (.error "fiscal year is not closed", fy)) ∧
    (fy.isClosed = true →
      (ServiceReopen now fy).1 = .ok () ∧
      (ServiceReopen now fy).2.isClosed = false ∧
      (ServiceReopen now fy).2.closedAt = none ∧
      (ServiceReopen now fy).2.closedBy = none ∧
      (ServiceReopen now fy).2.lastInvoiceNum = fy.lastInvoiceNum ∧
      (ServiceReopen now fy).2.lastPurchaseNum = fy.lastPurchaseNum ∧
      (ServiceReopen now fy).2.lastVoucherNum = fy.lastVoucherNum ∧
      (ServiceReopen now fy).2.invoicePrefix = fy.invoicePrefix ∧
      (ServiceReopen now fy).2.purchasePrefix = fy.purchasePrefix ∧
      (ServiceReopen now fy).2.voucherPrefix = fy.voucherPrefix ∧
      (ServiceReopen now fy).2.name = fy.name ∧
      (ServiceReopen now fy).2.startDate = fy.startDate ∧
      (ServiceReopen now fy).2.endDate = fy.endDate ∧
      (ServiceReopen now fy).2.startDateBS = fy.startDateBS ∧
      (ServiceReopen now fy).2.endDateBS = fy.endDateBS ∧
      GenerateInvoiceNumber now2 (ServiceReopen now fy).2 =
        (.ok (fy.invoicePrefix ++ fmtInt 4 (fy.lastInvoiceNum + 1)),
          { (ServiceReopen now fy).2 with
            lastInvoiceNum := fy.lastInvoiceNum + 1
            updatedAt := now2 })) := by
  constructor
  · intro h
    unfold ServiceReopen
    rw [h]
    rfl
  · intro h
    unfold ServiceReopen
    rw [h]
    simp only [Bool.true_eq_false, if_false, reduceIte]
    unfold FiscalYear.reopen GenerateInvoiceNumber incrementInvoiceNumber
    simp

/-- C7 witness: the open and the closed sample periods. -/
theorem c7_reopen_continuity_witness :
    (sampleFY.isClosed = false ∧
      ServiceReopen 70 sampleFY = (.error "fiscal year is not closed", sampleFY)) ∧
    (sampleClosedFY.isClosed = true ∧
      ((ServiceReopen 70 sampleClosedFY).1 = .ok () ∧
       (ServiceReopen 70 sampleClosedFY).2.isClosed = false ∧
       (ServiceReopen 70 sampleClosedFY).2.closedAt = none ∧
       (ServiceReopen 70 sampleClosedFY).2.closedBy = none ∧
       (ServiceReopen 70 sampleClosedFY).2.lastInvoiceNum = sampleClosedFY.lastInvoiceNum ∧
       (ServiceReopen 70 sampleClosedFY).2.lastPurchaseNum = sampleClosedFY.lastPurchaseNum ∧
       (ServiceReopen 70 sampleClosedFY).2.lastVoucherNum = sampleClosedFY.lastVoucherNum ∧
       (ServiceReopen 70 sampleClosedFY).2.invoicePrefix = sampleClosedFY.invoicePrefix ∧
       (ServiceReopen 70 sampleClosedFY).2.purchasePrefix = sampleClosedFY.purchasePrefix ∧
       (ServiceReopen 70 sampleClosedFY).2.voucherPrefix = sampleClosedFY.voucherPrefix ∧
       (ServiceReopen 70 sampleClosedFY).2.name = sampleClosedFY.name ∧
       (ServiceReopen 70 sampleClosedFY).2.startDate = sampleClosedFY.startDate ∧
       (ServiceReopen 70 sampleClosedFY).2.endDate = sampleClosedFY.endDate ∧
       (ServiceReopen 70 sampleClosedFY).2.startDateBS = sampleClosedFY.startDateBS ∧
       (ServiceReopen 70 sampleClosedFY).2.endDateBS = sampleClosedFY.endDateBS ∧
       GenerateInvoiceNumber 71 (ServiceReopen 70 sampleClosedFY).2 =
        (.ok (sampleClosedFY.invoicePrefix ++ fmtInt 4 (sampleClosedFY.lastInvoiceNum + 1)),
          { (ServiceReopen 70 sampleClosedFY).2 with
            lastInvoiceNum := sampleClosedFY.lastInvoiceNum + 1
            updatedAt := 71 }))) :=
  ⟨⟨by decide, (c7_reopen_continuity 70 71 sampleFY).1 (by decide)⟩,
   ⟨by decide, (c7_reopen_continuity 70 71 sampleClosedFY).2 (by decide)⟩⟩

/-- C8: the conversions preserve strict order — a strictly earlier civil day
offset maps to a lexicographically strictly smaller local date, and a
lexicographically smaller valid in-table local date maps to a strictly
smaller civil day offset. -/
theorem c8_conversion_monotone (d1 d2 : Int) (b1 b2 : NepaliDate)
    (hd : d1 < d2)
    (hd1 : inSeededTable (ADToBS d1).year) (hd2 : inSeededTable (ADToBS d2).year)
    (hb1 : b1.valid) (hb2 : b2.valid)
    (ht1 : inSeededTable b1.year) (ht2 : inSeededTable b2.year)
    (hlt : b1.lexLt b2) :
    (ADToBS d1).lexLt (ADToBS d2) ∧ BSToAD b1 < BSToAD b2 :=
  ⟨ADToBS_lexLt hd, BSToAD_lt_of_lexLt hb1 hb2 hlt⟩

/-- C8 witness at the civil offsets 824 and 825 and the local dates
2082-04-01 and 2082-04-02. -/
theorem c8_conversion_monotone_witness :
    (824 : Int) < 825 ∧
    inSeededTable (ADToBS 824).year ∧ inSeededTable (ADToBS 825).year ∧
    NepaliDate.valid ⟨2082, 4, 1⟩ ∧ NepaliDate.valid ⟨2082, 4, 2⟩ ∧
    inSeededTable (⟨2082, 4, 1⟩ : NepaliDate).year ∧
    inSeededTable (⟨2082, 4, 2⟩ : NepaliDate).year ∧
    NepaliDate.lexLt ⟨2082, 4, 1⟩ ⟨2082, 4, 2⟩ ∧
    ((ADToBS 824).lexLt (ADToBS 825) ∧ BSToAD ⟨2082, 4, 1⟩ < BSToAD ⟨2082, 4, 2⟩) :=
  ⟨by decide, by rw [ADToBS_at_824]; decide, by rw [ADToBS_at_825]; decide,
   by decide, by decide, by decide, by decide, by decide,
   c8_conversion_monotone 824 825 ⟨2082, 4, 1⟩ ⟨2082, 4, 2⟩ (by decide)
     (by rw [ADToBS_at_824]; decide) (by rw [ADToBS_at_825]; decide)
     (by decide) (by decide) (by decide) (by decide) (by decide)⟩

/-- C9: prefix derivation — for a name of length at least 7 the year code is
`name[2:4] + name[5:7]` (so "2082/83" gives "INV-8283-"), and for a shorter
name the whole name, separator included, is embedded verbatim
("82/83" gives "INV-82/83-"). -/
theorem c9_prefix_derivation (docType name : String) :
    (7 ≤ name.length →
      generatePrefix docType name =
        docType ++ "-" ++ ((name.drop 2).take 2 ++ (name.drop 5).take 2) ++ "-") ∧
    (name.length < 7 →
      generatePrefix docType name = docType ++ "-" ++ name ++ "-") ∧
    generatePrefix "INV" "2082/83" = "INV-8283-" ∧
    generatePrefix "INV" "82/83" = "INV-82/83-" := by
  refine ⟨?_, ?_, by decide, by decide⟩
  · intro h
    unfold generatePrefix
    rw [if_pos h]
  · intro h
    unfold generatePrefix
    rw [if_neg (by omega)]

/-- C9 witness at docType "INV" and name "2082/83". -/
theorem c9_prefix_derivation_witness :
    (7 ≤ ("2082/83" : String).length →
      generatePrefix "INV" "2082/83" =
        "INV" ++ "-" ++ (("2082/83".drop 2).take 2 ++ ("2082/83".drop 5).take 2) ++ "-") ∧
    (("2082/83" : String).length < 7 →
      generatePrefix "INV" "2082/83" = "INV" ++ "-" ++ "2082/83" ++ "-") ∧
    generatePrefix "INV" "2082/83" = "INV-8283-" ∧
    generatePrefix "INV" "82/83" = "INV-82/83-" :=
  c9_prefix_derivation "INV" "2082/83"

/-- C10: a malformed fiscal-year name is never rejected — when the name does
not begin with an integer the discarded `Sscanf` leaves year 0, the derived
local start is 0000-04-01 (month lengths fall back to the 30-day default for
year 0), and `CreateFromNepaliDate` still builds and persists the period
without any parse error. -/
theorem c10_malformed_name_accepted (now : Int) (id tenantId : Nat) (name : String)
    (h : beginsWithInt name = false) :
    (GetFiscalYearDates name).startBS = ⟨0, 4, 1⟩ ∧
    (GetFiscalYearDates name).endBS = ⟨1, 3, 32⟩ ∧
    getDaysInMonth 0 4 = 30 ∧
    ∃ fy, CreateFromNepaliDate now id tenantId name = .ok fy ∧
      fy.name = name ∧ fy.startDateBS = "0000-04-01" := by
  have hp := parseLeadingInt_of_not_beginsWithInt h
  simp only [GetFiscalYearDates, CreateFromNepaliDate]
  rw [hp]
  refine ⟨rfl, rfl, rfl, _, rfl, rfl, ?_⟩
  show NepaliDate.toDateString ⟨0, 4, 1⟩ = "0000-04-01"
  decide

/-- C10 witness at the malformed name "FY-next". -/
theorem c10_malformed_name_accepted_witness :
    beginsWithInt "FY-next" = false ∧
    ((GetFiscalYearDates "FY-next").startBS = ⟨0, 4, 1⟩ ∧
     (GetFiscalYearDates "FY-next").endBS = ⟨1, 3, 32⟩ ∧
     getDaysInMonth 0 4 = 30 ∧
     ∃ fy, CreateFromNepaliDate 3 8 200 "FY-next" = .ok fy ∧
       fy.name = "FY-next" ∧ fy.startDateBS = "0000-04-01") :=
  ⟨by decide, c10_malformed_name_accepted 3 8 200 "FY-next" (by decide)⟩

end Fiscal
